import Mathlib

/-!
Shallow embedding of the scope-bound resource guards of this repository:
`class file` from io-2.cpp, `class mutex` from mutex-2.cpp, and the
destructor-exception demonstration terminate.cpp (src/unnamed/part_000),
together with proofs of the lifecycle properties stated in the notes.

OS calls (`fwrite`, `fclose`, `pthread_mutex_destroy`) are modelled with an
explicit environment recording what the OS reports for that call, since the
outcomes are environmental; the guard code itself is translated line by line.
-/

namespace Lecture

/-- The value of `(size_t)-1` on the 64-bit build target. -/
def sizeTMax : Nat := 2 ^ 64 - 1

/-- POSIX error code returned by `pthread_mutex_destroy` on a locked mutex
(notes.md: "returns a nonzero error code (EBUSY) if the mutex is currently
locked"). -/
def EBUSY : Nat := 16

/-- An OS `errno` value, carried opaquely into error messages. -/
abbrev Errno := Nat

/-- Byte strings, as passed to `file::write`. -/
abbrev Data := List Nat

/-- The OS-level buffered stream behind a `FILE *`: its descriptor identity and
the bytes buffered so far. -/
structure FileStream where
  fd : Nat
  buffer : Data
deriving DecidableEq, Repr

/-- The state of a `file` guard: its `FILE *f` member, null (`none`) once the
handle has been released. -/
structure FileState where
  f : Option FileStream
deriving DecidableEq, Repr

/-- The exceptions `class file` throws from `write` and `close`. -/
inductive FileErr
  | errorWriting (e : Errno)
  | incompleteWrite
  | errorClosing (e : Errno)
deriving DecidableEq, Repr

/-- Environment of one `fwrite` call: how many complete items the OS accepts,
and the ambient `errno`. -/
structure WriteEnv where
  itemsAccepted : Nat
  errno : Errno
deriving DecidableEq, Repr

/-- Environment of one `fclose` call: whether the close (including the flush of
buffered data) fails, and the ambient `errno`. -/
structure CloseEnv where
  fcloseFails : Bool
  errno : Errno
deriving DecidableEq, Repr

/-- Return value of `fwrite(p, size, nmemb, f)`: the C library reports the
number of complete items written, which is at most `nmemb`, and returns zero
outright when `size` or `nmemb` is zero (C11 7.21.8.2). -/
def fwriteReturn (size nmemb itemsAccepted : Nat) : Nat :=
  if size = 0 ∨ nmemb = 0 then 0 else min itemsAccepted nmemb

/-- What one `file::write` call does, as observed by its caller.
`nullStreamUB` records that `write` performed no handle check and passed a
null `FILE *` straight to `fwrite`, a call with no defined behavior. -/
inductive WriteOutcome
  | ok
  | raised (e : FileErr)
  | nullStreamUB
deriving DecidableEq, Repr

/-- Result of one `file::write` call: the guard state afterwards, the observed
outcome, and which descriptor (if any) the underlying `fwrite` operated on. -/
structure WriteResult where
  state : FileState
  outcome : WriteOutcome
  touchedFd : Option Nat
deriving DecidableEq, Repr

/-- `file::write` (io-2.cpp lines 38-48, textually identical in
file_io-2.cpp): `size_t n = ::fwrite(s.c_str(), s.size(), 1, f);`, then
`if ((size_t)-1 == n) throw "error writing data"`, then
`if (1 != n) throw "incomplete write operation"`. The member `f` is passed to
`fwrite` unconditionally, with no validity check. -/
def file.write (st : FileState) (s : Data) (env : WriteEnv) : WriteResult :=
  match st.f with
  | none => ⟨st, .nullStreamUB, none⟩
  | some str =>
    let n := fwriteReturn s.length 1 env.itemsAccepted
    let str' := if n = 1 then FileStream.mk str.fd (str.buffer ++ s) else str
    if sizeTMax = n then
      ⟨⟨some str'⟩, .raised (.errorWriting env.errno), some str.fd⟩
    else if n ≠ 1 then
      ⟨⟨some str'⟩, .raised .incompleteWrite, some str.fd⟩
    else
      ⟨⟨some str'⟩, .ok, some str.fd⟩

/-- What one `file::close` call does, as observed by its caller. -/
inductive CloseOutcome
  | ok
  | raised (e : FileErr)
deriving DecidableEq, Repr

/-- Result of one `file::close` call: the guard state afterwards, the observed
outcome, and which descriptor (if any) this call released via `fclose`. -/
structure CloseResult where
  state : FileState
  outcome : CloseOutcome
  closedFd : Option Nat
deriving DecidableEq, Repr

/-- `file::close` (io-2.cpp lines 50-60): `if (!f) return;`, then
`int n = ::fclose(f); f = nullptr;` — the member is nulled unconditionally,
before the result test (the source comments: "file object mustn't be used
after fclose--even if an error occurred") — then `if (EOF == n) throw`. -/
def file.close (st : FileState) (env : CloseEnv) : CloseResult :=
  match st.f with
  | none => ⟨st, .ok, none⟩
  | some str =>
    if env.fcloseFails then
      ⟨⟨none⟩, .raised (.errorClosing env.errno), some str.fd⟩
    else
      ⟨⟨none⟩, .ok, some str.fd⟩

/-- What scope-exit destruction of a `file` guard does. A C++11 destructor is
implicitly `noexcept`, so an exception leaving it calls `std::terminate`;
accordingly there is no catchable-exception constructor here. -/
inductive DtorOutcome
  | normal
  | terminated (e : FileErr)
deriving DecidableEq, Repr

/-- Result of destroying a `file` guard at scope exit. -/
structure DtorResult where
  state : FileState
  outcome : DtorOutcome
  closedFd : Option Nat
deriving DecidableEq, Repr

/-- `file::~file` (io-2.cpp lines 18-20): the destructor body is `close();`
inside the implicitly `noexcept` destructor, so a `close` failure terminates
the process instead of propagating. -/
def file.dtor (st : FileState) (env : CloseEnv) : DtorResult :=
  let r := file.close st env
  match r.outcome with
  | .ok => ⟨r.state, .normal, r.closedFd⟩
  | .raised e => ⟨r.state, .terminated e, r.closedFd⟩

/-- `file(file &&) = default` (io-2.cpp line 34): the defaulted move
constructor moves the single `FILE *` member, and moving a raw pointer copies
it, leaving the source object's pointer unchanged. Returns
(destination, source after the move). -/
def file.moveCtor (src : FileState) : FileState × FileState :=
  (⟨src.f⟩, src)

/-- State of the `pthread_mutex_t m` member wrapped by `class mutex`. -/
structure MutexState where
  locked : Bool
deriving DecidableEq, Repr

/-- `pthread_mutex_destroy`: returns `EBUSY` when the mutex is currently
locked, zero on success. -/
def pthreadMutexDestroy (m : MutexState) : Nat :=
  if m.locked then EBUSY else 0

/-- What scope-exit destruction of a `mutex` guard does; as with `file`, the
C++11 destructor is implicitly `noexcept`, so there is no catchable-exception
constructor. -/
inductive MutexDtorOutcome
  | normal
  | terminated (code : Nat)
deriving DecidableEq, Repr

/-- `mutex::~mutex` (mutex-2.cpp lines 10-17): `int n =
::pthread_mutex_destroy(&m); if (n) throw ...` inside the implicitly
`noexcept` destructor, so the throw terminates the process. -/
def mutex.dtor (m : MutexState) : MutexDtorOutcome :=
  let n := pthreadMutexDestroy m
  if n ≠ 0 then .terminated n else .normal

/-- `mutex(mutex &&) = default` (mutex-2.cpp line 29): memberwise move of the
`pthread_mutex_t` member copies its bytes and leaves the source object
unchanged. Returns (destination, source after the move). -/
def mutex.moveCtor (src : MutexState) : MutexState × MutexState :=
  (src, src)

/-- The two exceptions thrown by the destructors of terminate.cpp. -/
inductive Exc
  | charlieErr
  | bravoErr
deriving DecidableEq, Repr

/-- Shape of a terminate.cpp destructor body: optionally one local guard
constructed in the body, then optionally a throw. -/
inductive Dtor
  | leaf (thrown : Option Exc)
  | withLocal (inner : Dtor) (thrown : Option Exc)

/-- Result of running one destructor during (possible) stack unwinding. -/
inductive UnwindOutcome
  | completed
  | propagating (e : Exc)
  | terminated (e : Exc)
deriving DecidableEq, Repr

/-- C++03 destructor-exception semantics, as described in notes.md: a
destructor may throw and its exception propagates normally, but the moment a
second exception escapes a destructor while another is already in flight, the
process terminates with that second exception. `inFlight` records whether this
destructor was invoked during the unwinding of an earlier exception. When the
body throws, its local guard is destroyed with the new exception in flight. -/
def runDtor : Dtor → Bool → UnwindOutcome
  | .leaf none, _ => .completed
  | .leaf (some e), inFlight =>
    if inFlight then .terminated e else .propagating e
  | .withLocal inner none, inFlight => runDtor inner inFlight
  | .withLocal inner (some e), inFlight =>
    match runDtor inner true with
    | .completed => if inFlight then .terminated e else .propagating e
    | .propagating e2 => .terminated e2
    | .terminated e2 => .terminated e2

/-- `alpha::~alpha` (terminate.cpp): prints and returns, throws nothing. -/
def alphaDtor : Dtor := .leaf none

/-- `bravo::~bravo` (terminate.cpp): constructs a local `alpha`, then throws
`runtime_error("bravo::~bravo()")`. -/
def bravoDtor : Dtor := .withLocal alphaDtor (some .bravoErr)

/-- `charlie::~charlie` (terminate.cpp): constructs a local `bravo`, then
throws `runtime_error("charlie::~charlie()")`. -/
def charlieDtor : Dtor := .withLocal bravoDtor (some .charlieErr)

/-- Observable fate of the terminate.cpp process. -/
inductive ProgOutcome
  | normalExit
  | caughtExc (e : Exc)
  | aborted (e : Exc)
deriving DecidableEq, Repr

/-- `main` of terminate.cpp under the C++03 rules: a `charlie` guard is
constructed inside a try block whose catch handler receives any exception
that propagates out of the guard's destruction; process termination bypasses
the handler. -/
def terminateMainCpp03 : ProgOutcome :=
  match runDtor charlieDtor false with
  | .completed => .normalExit
  | .propagating e => .caughtExc e
  | .terminated e => .aborted e

/-- Helper: after any `file::close` call, the `f` member is null. -/
theorem close_clears_handle (st : FileState) (env : CloseEnv) :
    (file.close st env).state.f = none := by
  cases h : st.f with
  | none => simp [file.close, h]
  | some str =>
    simp only [file.close, h]
    split <;> rfl

/-- Helper: the destructor produces the same state and releases the same
descriptor as the `close` call it performs. -/
theorem dtor_same_effect_as_close (st : FileState) (env : CloseEnv) :
    (file.dtor st env).state = (file.close st env).state ∧
    (file.dtor st env).closedFd = (file.close st env).closedFd := by
  unfold file.dtor
  cases h : (file.close st env).outcome <;> simp [h]

/-- Claim C1, counterexample: take a file guard on descriptor 3 and close it
successfully; a subsequent `write` is not rejected with a raised error — the
source performs no handle check, so the call reaches `fwrite` with the null
stream instead. -/
theorem write_after_close_not_rejected :
    ¬ ∃ e, (file.write (file.close ⟨some ⟨3, []⟩⟩ ⟨false, 0⟩).state [104] ⟨1, 0⟩).outcome
      = WriteOutcome.raised e := by
  intro hex
  obtain ⟨e, he⟩ := hex
  simp [file.close, file.write] at he

/-- Claim C1, amended: after any `close()` call on any file guard — success or
failure — the handle is null, so a subsequent `write()` touches no descriptor
(in particular never the stale one); but it is not rejected with an error:
`write` performs no validity check and passes the null handle to `fwrite`,
which has no defined behavior. -/
theorem write_after_close_touches_nothing (st : FileState) (envC : CloseEnv)
    (d : Data) (envW : WriteEnv) :
    (file.write (file.close st envC).state d envW).outcome = WriteOutcome.nullStreamUB ∧
    (file.write (file.close st envC).state d envW).touchedFd = none := by
  have h := close_clears_handle st envC
  simp [file.write, h]

/-- Claim C2, counterexample: move from a file guard holding descriptor 3; the
source guard still holds the handle (not an empty shell), and its scope-exit
cleanup releases descriptor 3 — it is not a no-op that releases nothing. -/
theorem moved_from_file_not_inert :
    (file.moveCtor ⟨some ⟨3, []⟩⟩).2.f ≠ none ∧
    (file.dtor (file.moveCtor ⟨some ⟨3, []⟩⟩).2 ⟨false, 0⟩).closedFd = some 3 := by
  decide

/-- Claim C2, amended: the defaulted move constructors copy the handle member
and leave the source guard unchanged; the destination holds the same handle as
the source, and the source's scope-exit cleanup is not a no-op — it releases
that same underlying descriptor again. Likewise the moved-from mutex guard is
left unchanged. -/
theorem move_leaves_source_unchanged (src : FileState) (str : FileStream)
    (env : CloseEnv) (m : MutexState) (h : src.f = some str) :
    (file.moveCtor src).1 = src ∧
    (file.moveCtor src).2 = src ∧
    (file.dtor (file.moveCtor src).2 env).closedFd = some str.fd ∧
    mutex.moveCtor m = (m, m) := by
  refine ⟨rfl, rfl, ?_, rfl⟩
  have h2 := (dtor_same_effect_as_close src env).2
  simp only [file.moveCtor]
  rw [h2]
  simp only [file.close, h]
  split <;> rfl

/-- Claim C2, witness for the amended theorem. -/
theorem move_leaves_source_unchanged_w :
    (file.moveCtor ⟨some ⟨3, []⟩⟩).1 = ⟨some ⟨3, []⟩⟩ ∧
    (file.moveCtor ⟨some ⟨3, []⟩⟩).2 = ⟨some ⟨3, []⟩⟩ ∧
    (file.dtor (file.moveCtor ⟨some ⟨3, []⟩⟩).2 ⟨true, 5⟩).closedFd = some 3 ∧
    mutex.moveCtor ⟨false⟩ = (⟨false⟩, ⟨false⟩) :=
  move_leaves_source_unchanged ⟨some ⟨3, []⟩⟩ ⟨3, []⟩ ⟨true, 5⟩ ⟨false⟩ rfl

/-- Claim C3: for every file guard and any environments — in particular even
when the first `close` failed — a second `close()` call is a no-op: it reports
success, never raises, leaves the state unchanged and releases no descriptor,
because the first call nulled the handle and the early `if (!f) return;`
fires. -/
theorem close_twice_noop (st : FileState) (env1 env2 : CloseEnv) :
    (file.close (file.close st env1).state env2).outcome = CloseOutcome.ok ∧
    (file.close (file.close st env1).state env2).state = (file.close st env1).state ∧
    (file.close (file.close st env1).state env2).closedFd = none := by
  have h := close_clears_handle st env1
  cases hst : (file.close st env1).state with
  | mk f =>
    have hf : f = none := by simpa [hst] using h
    subst hf
    simp [file.close]

/-- Claim C4: a failing explicit `close()` still nulls the handle before the
error is raised: the caller observes the raised "error closing file" error
together with an already-invalidated handle. -/
theorem failed_close_invalidates (st : FileState) (str : FileStream)
    (env : CloseEnv) (h : st.f = some str) (hf : env.fcloseFails = true) :
    (file.close st env).state.f = none ∧
    (file.close st env).outcome = CloseOutcome.raised (FileErr.errorClosing env.errno) := by
  simp [file.close, h, hf]

/-- Claim C4, witness. -/
theorem failed_close_invalidates_w :
    (file.close ⟨some ⟨3, []⟩⟩ ⟨true, 5⟩).state.f = none ∧
    (file.close ⟨some ⟨3, []⟩⟩ ⟨true, 5⟩).outcome
      = CloseOutcome.raised (FileErr.errorClosing 5) :=
  failed_close_invalidates ⟨some ⟨3, []⟩⟩ ⟨3, []⟩ ⟨true, 5⟩ rfl rfl

/-- Claim C5: scope-exit destruction runs the same close logic as explicit
`close()` (same resulting state, same descriptor released); if the owner
already closed the guard the destructor is a no-op exiting normally, and if
the guard was still open and the close fails, the destructor's outcome is
process termination — the `DtorOutcome` type has no catchable-exception
constructor, reflecting the implicitly `noexcept` destructor. -/
theorem dtor_runs_close_logic (st : FileState) (env : CloseEnv) :
    (file.dtor st env).state = (file.close st env).state ∧
    (file.dtor st env).closedFd = (file.close st env).closedFd ∧
    (st.f = none → file.dtor st env = ⟨st, .normal, none⟩) ∧
    (∀ str, st.f = some str → env.fcloseFails = true →
      (file.dtor st env).outcome = DtorOutcome.terminated (FileErr.errorClosing env.errno)) := by
  refine ⟨(dtor_same_effect_as_close st env).1, (dtor_same_effect_as_close st env).2, ?_, ?_⟩
  · intro h
    simp [file.dtor, file.close, h]
  · intro str h hf
    simp [file.dtor, file.close, h, hf]

/-- Claim C5, witness. -/
theorem dtor_runs_close_logic_w :
    file.dtor ⟨none⟩ ⟨true, 0⟩ = ⟨⟨none⟩, .normal, none⟩ ∧
    (file.dtor ⟨some ⟨3, []⟩⟩ ⟨true, 5⟩).outcome
      = DtorOutcome.terminated (FileErr.errorClosing 5) :=
  ⟨(dtor_runs_close_logic ⟨none⟩ ⟨true, 0⟩).2.2.1 rfl,
   (dtor_runs_close_logic ⟨some ⟨3, []⟩⟩ ⟨true, 5⟩).2.2.2 ⟨3, []⟩ rfl rfl⟩

/-- Claim C6: destroying a mutex guard whose underlying mutex is still locked
terminates the process: `pthread_mutex_destroy` reports `EBUSY`, the
destructor throws inside its implicit `noexcept`, and the outcome is
`terminated`, never `normal` — and the `MutexDtorOutcome` type has no
catchable-exception constructor. -/
theorem locked_mutex_dtor_terminates (m : MutexState) (h : m.locked = true) :
    mutex.dtor m = MutexDtorOutcome.terminated EBUSY ∧
    mutex.dtor m ≠ MutexDtorOutcome.normal := by
  simp [mutex.dtor, pthreadMutexDestroy, h, EBUSY]

/-- Claim C6, witness. -/
theorem locked_mutex_dtor_terminates_w :
    mutex.dtor ⟨true⟩ = MutexDtorOutcome.terminated EBUSY ∧
    mutex.dtor ⟨true⟩ ≠ MutexDtorOutcome.normal :=
  locked_mutex_dtor_terminates ⟨true⟩ rfl

/-- Claim C7: destroying a mutex guard whose underlying mutex is unlocked
always succeeds: `pthread_mutex_destroy` returns zero, nothing is thrown, and
the destructor exits normally. -/
theorem unlocked_mutex_dtor_ok (m : MutexState) (h : m.locked = false) :
    mutex.dtor m = MutexDtorOutcome.normal := by
  simp [mutex.dtor, pthreadMutexDestroy, h]

/-- Claim C7, witness. -/
theorem unlocked_mutex_dtor_ok_w : mutex.dtor ⟨false⟩ = MutexDtorOutcome.normal :=
  unlocked_mutex_dtor_ok ⟨false⟩ rfl

/-- Claim C8, counterexample: writing empty data to an open guard raises the
"incomplete write operation" error even though all (zero) requested bytes are
accepted: `fwrite` returns 0 when `size` is 0, and the `1 != n` check then
throws. -/
theorem empty_write_raises :
    (file.write ⟨some ⟨3, []⟩⟩ [] ⟨1, 0⟩).outcome
      = WriteOutcome.raised FileErr.incompleteWrite ∧
    (file.write ⟨some ⟨3, []⟩⟩ [] ⟨1, 0⟩).outcome ≠ WriteOutcome.ok := by
  decide

/-- Claim C8, amended: for nonempty data, `write` succeeds without error and
appends the data to the stream's buffer exactly when the underlying `fwrite`
accepts the single requested item, and raises the "incomplete write
operation" error when it accepts none; but for empty data `write` always
raises that error, because `fwrite` returns 0 items whenever the item size is
0. -/
theorem write_error_exactly_on_short_write (str : FileStream) (d : Data)
    (env : WriteEnv) :
    (d ≠ [] → 1 ≤ env.itemsAccepted →
      file.write ⟨some str⟩ d env
        = ⟨⟨some ⟨str.fd, str.buffer ++ d⟩⟩, .ok, some str.fd⟩) ∧
    (d ≠ [] → env.itemsAccepted = 0 →
      (file.write ⟨some str⟩ d env).outcome
        = WriteOutcome.raised FileErr.incompleteWrite) ∧
    (d = [] →
      (file.write ⟨some str⟩ d env).outcome
        = WriteOutcome.raised FileErr.incompleteWrite) := by
  refine ⟨?_, ?_, ?_⟩
  · intro hd hi
    have hlen : d.length ≠ 0 := by simpa using hd
    have hn : fwriteReturn d.length 1 env.itemsAccepted = 1 := by
      simp [fwriteReturn, hlen]
      omega
    simp [file.write, hn, sizeTMax]
  · intro hd hi
    have hlen : d.length ≠ 0 := by simpa using hd
    have hn : fwriteReturn d.length 1 env.itemsAccepted = 0 := by
      simp [fwriteReturn, hlen, hi]
    simp [file.write, hn, sizeTMax]
  · intro hd
    have hn : fwriteReturn d.length 1 env.itemsAccepted = 0 := by
      simp [fwriteReturn, hd]
    simp [file.write, hn, sizeTMax]

/-- Claim C8, witness for the amended theorem. -/
theorem write_error_exactly_on_short_write_w :
    file.write ⟨some ⟨3, [97]⟩⟩ [98] ⟨1, 0⟩
      = ⟨⟨some ⟨3, [97, 98]⟩⟩, .ok, some 3⟩ ∧
    (file.write ⟨some ⟨4, []⟩⟩ [99] ⟨0, 0⟩).outcome
      = WriteOutcome.raised FileErr.incompleteWrite :=
  ⟨(write_error_exactly_on_short_write ⟨3, [97]⟩ [98] ⟨1, 0⟩).1 (by decide) (by decide),
   (write_error_exactly_on_short_write ⟨4, []⟩ [99] ⟨0, 0⟩).2.1 (by decide) rfl⟩

/-- Claim C9: in terminate.cpp compiled for C++03 — the build in which both
cleanups actually fail — with A the first-created guard (`charlie`, whose
exception is thrown first) and B the later-created, first-destroyed guard
(`bravo`), the process aborts at B's failure: B's exception is the second one
in flight and is escalated unconditionally to process termination, while A's
earlier failure is superseded — it is neither the aborting exception nor ever
caught by main's handler. -/
theorem terminate_cpp03_aborts_at_bravo :
    terminateMainCpp03 = ProgOutcome.aborted Exc.bravoErr ∧
    terminateMainCpp03 ≠ ProgOutcome.aborted Exc.charlieErr ∧
    terminateMainCpp03 ≠ ProgOutcome.caughtExc Exc.charlieErr ∧
    terminateMainCpp03 ≠ ProgOutcome.caughtExc Exc.bravoErr ∧
    terminateMainCpp03 ≠ ProgOutcome.normalExit := by
  decide

/-- Claim C10: the "error writing data" branch of `file::write` is
unreachable: `fwrite` called with an item count of 1 returns at most 1 item,
never the sentinel `(size_t)-1` the branch tests for, so every call either
succeeds, hits the null-stream undefined behavior, or raises the "incomplete
write operation" error — a raised `errorWriting` outcome is impossible. -/
theorem error_writing_branch_unreachable (st : FileState) (d : Data)
    (env : WriteEnv) :
    fwriteReturn d.length 1 env.itemsAccepted ≤ 1 ∧
    ((file.write st d env).outcome = WriteOutcome.ok ∨
     (file.write st d env).outcome = WriteOutcome.nullStreamUB ∨
     (file.write st d env).outcome = WriteOutcome.raised FileErr.incompleteWrite) := by
  have hle : fwriteReturn d.length 1 env.itemsAccepted ≤ 1 := by
    unfold fwriteReturn
    split
    · exact Nat.zero_le 1
    · exact Nat.min_le_right _ _
  refine ⟨hle, ?_⟩
  cases h : st.f with
  | none =>
    right; left
    simp [file.write, h]
  | some str =>
    have hne : ¬ (sizeTMax = fwriteReturn d.length 1 env.itemsAccepted) := by
      unfold sizeTMax
      omega
    by_cases h1 : fwriteReturn d.length 1 env.itemsAccepted = 1
    · left
      have hne1 : ¬ (sizeTMax = 1) := by
        unfold sizeTMax
        omega
      simp [file.write, h, hne1, h1]
    · right; right
      simp [file.write, h, hne, h1]

end Lecture
